import Mathlib

/- Verification of the stock correlation monitor implemented in pearsons.py.

   The development is a shallow embedding of the program.  Timestamps,
   closing prices and wall clock instants are rationals (exact decimal
   data), fallible calls return Except values, and the float produced by
   the pandas correlation is modelled as an Option on a real coefficient,
   where none stands for NaN.  The market data provider is a parameter of
   the fetching functions, so theorems quantify over every provider
   behaviour the library can exhibit. -/

/-- A time indexed series of closing prices, as (timestamp, close) pairs.
Real provider data has strictly increasing, duplicate free timestamps;
theorems that need this take it as an explicit hypothesis. -/
abbrev PriceSeries : Type := List (ℚ × ℚ)

/-- One row of a provider data frame.  The program reads only the Close
column, so the remaining columns are dropped from the model.  Every frame
the provider library returns carries a Close column, including the empty
frame it builds for unknown symbols, so selecting the column never fails,
and an empty frame yields an empty series. -/
structure FrameRow where
  close : ℚ
deriving DecidableEq

/-- A provider data frame: rows indexed by timestamp. -/
abbrev PriceFrame : Type := List (ℚ × FrameRow)

/-- The market data call of line 27: symbol, interval and period, to a
frame or a failure message.  This abstracts the external history call on
the ticker object; a network fault or provider fault is the error case. -/
abbrev Provider : Type := String → String → String → Except String PriceFrame

/-- Selection of the Close column of a frame, line 28. -/
def closeColumn (data : PriceFrame) : PriceSeries :=
  data.map (fun p => (p.1, p.2.close))

/-- The interval to period dictionary of lines 14 to 24 of pearsons.py,
as an association list; the values for the daily or coarser keys are the
caller supplied period. -/
def timeframe_mapping (period : String) : List (String × String) :=
  [("1m", "7d"), ("5m", "60d"), ("15m", "60d"), ("30m", "60d"),
   ("1h", "730d"), ("4h", "730d"),
   ("1d", period), ("1wk", period), ("1mo", period)]

/-- The dictionary get with default of line 26. -/
def selected_period (timeframe period : String) : String :=
  (List.lookup timeframe (timeframe_mapping period)).getD "1y"

/-- get_stock_data, lines 8 to 28: look up the effective period for the
requested interval, call the provider, and return the Close column of the
resulting frame.  There is no emptiness check and no try block here, so a
provider failure propagates and a successful (possibly empty) frame is
returned as data. -/
def get_stock_data (hist : Provider) (symbol timeframe period : String) :
    Except String PriceSeries :=
  Except.map closeColumn (hist symbol timeframe (selected_period timeframe period))

/-- Lookup of a timestamp in a price series, modelling the pandas index
match used by the inner join. -/
def lookupTs (t : ℚ) : PriceSeries → Option ℚ
  | [] => none
  | p :: rest => if t = p.1 then some p.2 else lookupTs t rest

/-- The inner join on timestamps of line 38 (pd.concat with axis 1 and
join inner): a row (t, x, y) for every timestamp t of the first series
that also appears in the second, in the order of the first series. -/
def innerJoin (a b : PriceSeries) : List (ℚ × ℚ × ℚ) :=
  a.filterMap (fun p => (lookupTs p.1 b).map (fun y => (p.1, p.2, y)))

/-- First value column of a joined table. -/
def xcol (j : List (ℚ × ℚ × ℚ)) : List ℚ := j.map (fun r => r.2.1)

/-- Second value column of a joined table. -/
def ycol (j : List (ℚ × ℚ × ℚ)) : List ℚ := j.map (fun r => r.2.2)

/-- Arithmetic mean of a list of rationals; on the empty list the rational
division by zero yields 0, matching the degenerate case analysis below. -/
def mean (xs : List ℚ) : ℚ := xs.sum / xs.length

/-- Deviations from the mean. -/
def centered (xs : List ℚ) : List ℚ := xs.map (fun x => x - mean xs)

/-- Centered sum of squares, the numerator of the sample variance. -/
def sxx (xs : List ℚ) : ℚ := ((centered xs).map (fun c => c * c)).sum

/-- Centered sum of cross products. -/
def sxy (xs ys : List ℚ) : ℚ :=
  (List.zipWith (fun a b => a * b) (centered xs) (centered ys)).sum

/-- The sample Pearson coefficient computed by the corr call on line 41.
pandas returns NaN exactly when the denominator vanishes, that is when a
column has fewer than 2 points or zero variance; NaN is modelled as none
and the defined value is the textbook quotient over the reals. -/
noncomputable def pearson_r (xs ys : List ℚ) : Option ℝ :=
  if sxx xs = 0 ∨ sxx ys = 0 then none
  else some ((sxy xs ys : ℝ) / (Real.sqrt (sxx xs) * Real.sqrt (sxx ys)))

/-- The value calculate_correlation hands back: a Python float, possibly
NaN (modelled as num none), or the error string built on line 45.  The
success test on line 70 of the monitor is an isinstance float check,
which is the num constructor test here; NaN is a float and passes it. -/
inductive PyCorr where
  | num (x : Option ℝ)
  | err (msg : String)

/-- calculate_correlation, lines 30 to 45: fetch both series, inner join
them on timestamps, and compute the Pearson coefficient of the two value
columns; any exception raised inside (in particular by either fetch) is
caught and turned into an error string prefixed with Error and a colon. -/
noncomputable def calculate_correlation (hist : Provider)
    (s1 s2 timeframe period : String) : PyCorr :=
  match get_stock_data hist s1 timeframe period with
  | Except.error e => PyCorr.err ("Error: " ++ e)
  | Except.ok d1 =>
    match get_stock_data hist s2 timeframe period with
    | Except.error e => PyCorr.err ("Error: " ++ e)
    | Except.ok d2 =>
      PyCorr.num (pearson_r (xcol (innerJoin d1 d2)) (ycol (innerJoin d1 d2)))

/-- The monitor loop state of lines 51 and 52: the instant of the last
successful report and the sample count it saw, both initially none. -/
structure MonitorState where
  last_update : Option ℚ
  last_data_count : Option ℕ
deriving DecidableEq

/-- The reporting gate of lines 64 to 66: last_update unset or at least
60 seconds elapsed, and last_data_count unset or the fresh count strictly
larger. -/
def should_report (last_update : Option ℚ) (last_data_count : Option ℕ)
    (current_time : ℚ) (current_count : ℕ) : Bool :=
  (match last_update with
   | none => true
   | some t => decide (current_time - t ≥ 60)) &&
  (match last_data_count with
   | none => true
   | some c => decide (current_count > c))

/-- Console output of one loop iteration: a correlation report (line 72,
carrying the float, none being NaN), the error notification of line 83,
the unexpected error log of line 93, or the stop notice of line 90. -/
inductive Event where
  | report (x : Option ℝ)
  | errorNotice (msg : String)
  | unexpected (msg : String)
  | stopNotice

/-- Recogniser for the stop notice, used to count stop notices. -/
def isStopNotice : Event → Bool
  | Event.stopNotice => true
  | _ => false

/-- The gated part of one monitor iteration, lines 64 to 84: when the
gate passes, a float result (NaN included) is reported and both state
variables are set to the current instant and count, while an error string
produces an error notification and leaves the state alone; when the gate
fails nothing is emitted. -/
def monitor_step (st : MonitorState) (current_time : ℚ) (current_count : ℕ)
    (correlation : PyCorr) : MonitorState × Option Event :=
  if should_report st.last_update st.last_data_count current_time current_count then
    match correlation with
    | PyCorr.num x =>
      (⟨some current_time, some current_count⟩, some (Event.report x))
    | PyCorr.err m => (st, some (Event.errorNotice m))
  else (st, none)

/-- The environment one loop iteration observes: the wall clock reading of
line 61, the outcome of the fresh fetch of the first symbol on line 57,
the outcome the gated calculate_correlation call of line 68 would have,
and whether the operator interrupt arrives during this iteration (it is
delivered in the sleep of line 87 and caught on line 89). -/
structure IterEnv where
  now : ℚ
  fetch1 : Except String PriceSeries
  corr : PyCorr
  interrupt : Bool

/-- Result of running the loop over a trace of iteration environments:
final state, console output in order, and whether the loop was stopped by
the operator interrupt (break on line 91). -/
structure RunResult where
  state : MonitorState
  output : List Event
  stopped : Bool

/-- One full iteration of the while loop, lines 54 to 94: a failing fetch
is caught by the generic handler of line 92 and logged, a successful
fetch feeds the gate with the fresh sample count, and an interrupt during
the sleep ends the loop after printing the stop notice of line 90. -/
def loop_body (st : MonitorState) (env : IterEnv) : RunResult :=
  let inner : MonitorState × List Event :=
    match env.fetch1 with
    | Except.error e => (st, [Event.unexpected e])
    | Except.ok data =>
      ((monitor_step st env.now data.length env.corr).1,
       (monitor_step st env.now data.length env.corr).2.toList)
  if env.interrupt then ⟨inner.1, inner.2 ++ [Event.stopNotice], true⟩
  else ⟨inner.1, inner.2, false⟩

/-- continuous_monitor, lines 47 to 94, run over a finite observation
trace: iterations execute in order until the trace ends or an interrupt
stops the loop; once stopped, later environments are never consumed. -/
def continuous_monitor_run (st : MonitorState) : List IterEnv → RunResult
  | [] => ⟨st, [], false⟩
  | env :: rest =>
    if (loop_body st env).stopped then loop_body st env
    else
      ⟨(continuous_monitor_run (loop_body st env).state rest).state,
       (loop_body st env).output ++
         (continuous_monitor_run (loop_body st env).state rest).output,
       (continuous_monitor_run (loop_body st env).state rest).stopped⟩

/-- Process exit status: a stopped loop returns from continuous_monitor,
main returns, and the script ends normally with status 0; while the loop
is still running there is no exit status. -/
def exit_code (r : RunResult) : Option ℕ :=
  if r.stopped then some 0 else none

/-- The invariant of claim C10: the two monitor state variables are both
unset or both set. -/
def stateInv (st : MonitorState) : Prop :=
  (st.last_update = none ∧ st.last_data_count = none) ∨
  (st.last_update ≠ none ∧ st.last_data_count ≠ none)

/-- Outcome of starting the process, lines 1 to 6 and 129 to 135. -/
inductive StartupOutcome where
  | uncaughtImportError
  | remediation
  | monitoring
deriving DecidableEq

/-- Startup control flow of pearsons.py.  The module body runs first, and
its very first statement (line 1) imports yfinance; when the package is
missing this raises ImportError before the try block of line 130 has been
entered, so the exception is uncaught and the process dies with a
traceback: the remediation branch of lines 133 to 135 never runs.  When
the package is present, the guarded second import on line 131 succeeds as
well and main is called, which enters the monitoring loop. -/
def module_startup (yfAvailable : Bool) : StartupOutcome :=
  if yfAvailable then StartupOutcome.monitoring
  else StartupOutcome.uncaughtImportError

/-- A provider for the zero variance scenario of claim C1: symbol AAA has
two bars with constant close 100, any other symbol has the same two
timestamps with closes 100 and 200, so the aligned series has 2 points
and its first value column has zero variance. -/
def histC1 : Provider := fun symbol _ _ =>
  if symbol = "AAA" then Except.ok [(0, ⟨100⟩), (1, ⟨100⟩)]
  else Except.ok [(0, ⟨100⟩), (1, ⟨200⟩)]

/-- A concrete iteration environment whose iteration is interrupted, used
by the cancellation witness. -/
def iEnv0 : IterEnv := ⟨0, Except.ok [], PyCorr.err "refused", true⟩

/-- C2: for every call to get_stock_data, a 1m interval fetches with the
7d window, the 5m, 15m and 30m intervals with 60d, the 1h and 4h
intervals with 730d, regardless of the caller supplied period, while the
1d, 1wk and 1mo intervals use the caller supplied period unchanged; in
particular a 5 minute interval with a 10y period fetches with 60d. -/
theorem C2_window_override (hist : Provider) (symbol period : String) :
    selected_period "1m" period = "7d" ∧
    selected_period "5m" period = "60d" ∧
    selected_period "15m" period = "60d" ∧
    selected_period "30m" period = "60d" ∧
    selected_period "1h" period = "730d" ∧
    selected_period "4h" period = "730d" ∧
    selected_period "1d" period = period ∧
    selected_period "1wk" period = period ∧
    selected_period "1mo" period = period ∧
    get_stock_data hist symbol "5m" "10y" =
      Except.map closeColumn (hist symbol "5m" "60d") :=
  ⟨rfl, rfl, rfl, rfl, rfl, rfl, rfl, rfl, rfl, rfl⟩

/-- C7 counterexample: the claim says get_stock_data fails whenever the
provider returns an empty result, but the code has no emptiness check:
with a provider that delivers an empty frame (as the library does for an
unknown symbol), get_stock_data returns an empty series as valid data. -/
theorem C7_empty_result_returned_as_valid :
    get_stock_data (fun _ _ _ => Except.ok []) "ZZZZINVALID" "1d" "1y" =
      Except.ok [] := rfl

/-- C7 amended: get_stock_data propagates a provider failure (network
error or provider fault) unchanged to its caller; an empty provider
result, however, is passed onward as an empty but valid series. -/
theorem C7_provider_errors_propagate (hist : Provider)
    (symbol timeframe period msg : String)
    (h : hist symbol timeframe (selected_period timeframe period) =
      Except.error msg) :
    get_stock_data hist symbol timeframe period = Except.error msg := by
  unfold get_stock_data
  rw [h]
  rfl

/-- Witness for the amended C7 at a concrete failing provider. -/
theorem C7_provider_errors_propagate_witness :
    get_stock_data (fun _ _ _ => Except.error "ConnectionError")
      "AAPL" "1d" "1y" = Except.error "ConnectionError" :=
  C7_provider_errors_propagate (fun _ _ _ => Except.error "ConnectionError")
    "AAPL" "1d" "1y" "ConnectionError" rfl

/-- C8: the claim says a missing yfinance dependency at startup prints
remediation instructions and exits before the loop.  In the code the
module level import on line 1 raises first, so the process exits with an
uncaught ImportError, never entering the loop but also never reaching the
remediation branch: that branch is unreachable for every startup. -/
theorem C8_missing_dependency_uncaught (b : Bool) :
    module_startup false = StartupOutcome.uncaughtImportError ∧
    module_startup false ≠ StartupOutcome.monitoring ∧
    module_startup b ≠ StartupOutcome.remediation := by
  refine ⟨rfl, by simp [module_startup], ?_⟩
  cases b <;> simp [module_startup]

/-- The gate is true exactly under the disjunction of the claim. -/
theorem should_report_iff (lu : Option ℚ) (lc : Option ℕ) (now : ℚ) (n : ℕ) :
    should_report lu lc now n = true ↔
      ((lu = none ∨ ∃ t, lu = some t ∧ 60 ≤ now - t) ∧
       (lc = none ∨ ∃ m, lc = some m ∧ m < n)) := by
  cases lu <;> cases lc <;> simp [should_report]

/-- The gated step emits an event exactly when the gate is true. -/
theorem monitor_step_isSome (st : MonitorState) (now : ℚ) (n : ℕ) (c : PyCorr) :
    (monitor_step st now n c).2.isSome =
      should_report st.last_update st.last_data_count now n := by
  unfold monitor_step
  cases h : should_report st.last_update st.last_data_count now n
  · simp [h]
  · cases c <;> simp [h]

/-- A false gate suppresses any emission. -/
theorem monitor_step_none (st : MonitorState) (now : ℚ) (n : ℕ) (c : PyCorr)
    (h : should_report st.last_update st.last_data_count now n = false) :
    (monitor_step st now n c).2 = none := by
  unfold monitor_step
  simp [h]

/-- C3: in a monitor iteration with a fresh count n, a report attempt
(some emission, success or error) happens exactly when last_update is
unset or at least 60 seconds old, and last_data_count is unset or
exceeded by n; with both set to T0 and N0, nothing is emitted while less
than 60 seconds have elapsed since T0, however much the count grew, and
nothing is emitted afterwards either unless n exceeds N0. -/
theorem C3_report_gate (st : MonitorState) (now : ℚ) (n : ℕ) (c : PyCorr) :
    ((monitor_step st now n c).2.isSome = true ↔
      ((st.last_update = none ∨ ∃ t, st.last_update = some t ∧ 60 ≤ now - t) ∧
       (st.last_data_count = none ∨ ∃ m, st.last_data_count = some m ∧ m < n))) ∧
    (∀ T0 : ℚ, ∀ N0 : ℕ, st.last_update = some T0 → st.last_data_count = some N0 →
      (now - T0 < 60 → (monitor_step st now n c).2 = none) ∧
      (n ≤ N0 → (monitor_step st now n c).2 = none)) := by
  constructor
  · rw [monitor_step_isSome, should_report_iff]
  · intro T0 N0 h1 h2
    constructor
    · intro hlt
      apply monitor_step_none
      simp [should_report, h1, h2, not_le.mpr hlt]
    · intro hle
      apply monitor_step_none
      simp [should_report, h1, h2, not_lt.mpr hle]

/-- Witness for C3: with T0 set to 0 and N0 set to 5, no emission at
instant 30 even with count 10, and no emission at instant 100 with
count 5. -/
theorem C3_report_gate_witness :
    (monitor_step ⟨some 0, some 5⟩ 30 10 (PyCorr.err "x")).2 = none ∧
    (monitor_step ⟨some 0, some 5⟩ 100 5 (PyCorr.err "x")).2 = none :=
  ⟨((C3_report_gate ⟨some 0, some 5⟩ 30 10 (PyCorr.err "x")).2 0 5 rfl rfl).1
      (by norm_num),
   ((C3_report_gate ⟨some 0, some 5⟩ 100 5 (PyCorr.err "x")).2 0 5 rfl rfl).2
      (by norm_num)⟩

/-- C4: when the gated correlation yields the error string, the monitor
emits the error notification and leaves both state variables untouched;
a float result (NaN included) updates both to the current instant and
count together with the report; and whenever the state changed at all,
the result was a float and the new state is exactly that pair. -/
theorem C4_error_preserves_state (st : MonitorState) (now : ℚ) (n : ℕ)
    (c : PyCorr) :
    (∀ msg, c = PyCorr.err msg →
      should_report st.last_update st.last_data_count now n = true →
      monitor_step st now n c = (st, some (Event.errorNotice msg))) ∧
    (∀ x, c = PyCorr.num x →
      should_report st.last_update st.last_data_count now n = true →
      monitor_step st now n c = (⟨some now, some n⟩, some (Event.report x))) ∧
    ((monitor_step st now n c).1 ≠ st →
      (∃ x, c = PyCorr.num x) ∧ (monitor_step st now n c).1 = ⟨some now, some n⟩) := by
  refine ⟨?_, ?_, ?_⟩
  · intro msg hc hg
    subst hc
    unfold monitor_step
    simp [hg]
  · intro x hc hg
    subst hc
    unfold monitor_step
    simp [hg]
  · intro hne
    unfold monitor_step at hne ⊢
    cases hg : should_report st.last_update st.last_data_count now n
    · simp [hg] at hne
    · cases c with
      | num x => exact ⟨⟨x, rfl⟩, by simp [hg]⟩
      | err m => simp [hg] at hne

/-- Witness for C4: an error result leaves the initial state unchanged,
and a numeric result installs the instant and count. -/
theorem C4_error_preserves_state_witness :
    monitor_step ⟨none, none⟩ 7 3 (PyCorr.err "boom") =
      (⟨none, none⟩, some (Event.errorNotice "boom")) ∧
    monitor_step ⟨none, none⟩ 7 3 (PyCorr.num (some 1)) =
      (⟨some 7, some 3⟩, some (Event.report (some 1))) :=
  ⟨(C4_error_preserves_state ⟨none, none⟩ 7 3 (PyCorr.err "boom")).1
      "boom" rfl rfl,
   (C4_error_preserves_state ⟨none, none⟩ 7 3 (PyCorr.num (some 1))).2.1
      (some 1) rfl rfl⟩

/-- C5: calculate_correlation is total, returning either a float or an
error value, never a raised fault; and a failure of either fetch is
converted into the error value that carries the failure description. -/
theorem C5_engine_never_raises (hist : Provider) (s1 s2 tf p : String) :
    ((∃ x, calculate_correlation hist s1 s2 tf p = PyCorr.num x) ∨
     (∃ m, calculate_correlation hist s1 s2 tf p = PyCorr.err m)) ∧
    (∀ e, get_stock_data hist s1 tf p = Except.error e →
      calculate_correlation hist s1 s2 tf p = PyCorr.err ("Error: " ++ e)) ∧
    (∀ d1 e, get_stock_data hist s1 tf p = Except.ok d1 →
      get_stock_data hist s2 tf p = Except.error e →
      calculate_correlation hist s1 s2 tf p = PyCorr.err ("Error: " ++ e)) := by
  refine ⟨?_, ?_, ?_⟩
  · cases h1 : get_stock_data hist s1 tf p with
    | error e =>
      exact Or.inr ⟨"Error: " ++ e, by simp [calculate_correlation, h1]⟩
    | ok d1 =>
      cases h2 : get_stock_data hist s2 tf p with
      | error e =>
        exact Or.inr ⟨"Error: " ++ e, by simp [calculate_correlation, h1, h2]⟩
      | ok d2 =>
        exact Or.inl ⟨pearson_r (xcol (innerJoin d1 d2)) (ycol (innerJoin d1 d2)),
          by simp [calculate_correlation, h1, h2]⟩
  · intro e h1
    simp [calculate_correlation, h1]
  · intro d1 e h1 h2
    simp [calculate_correlation, h1, h2]

/-- Witness for C5 at a provider whose calls all fail. -/
theorem C5_engine_never_raises_witness :
    calculate_correlation (fun _ _ _ => Except.error "HTTPError")
      "AAPL" "MSFT" "1d" "1y" = PyCorr.err ("Error: " ++ "HTTPError") :=
  (C5_engine_never_raises (fun _ _ _ => Except.error "HTTPError")
      "AAPL" "MSFT" "1d" "1y").2.1 "HTTPError" rfl

/-- A sum of squares is nonnegative. -/
theorem sum_sq_nonneg (l : List ℚ) : 0 ≤ (l.map (fun a => a * a)).sum := by
  induction l with
  | nil => simp
  | cons a l ih =>
    simp only [List.map_cons, List.sum_cons]
    exact add_nonneg (mul_self_nonneg a) ih

/-- The centered sum of squares is nonnegative. -/
theorem sxx_nonneg (xs : List ℚ) : 0 ≤ sxx xs :=
  sum_sq_nonneg (centered xs)

/-- Induction step of the Cauchy Schwarz inequality for list sums. -/
theorem cs_step (a b S X Y : ℚ) (hS : S ^ 2 ≤ X * Y) (hX : 0 ≤ X) (hY : 0 ≤ Y) :
    (a * b + S) ^ 2 ≤ (a * a + X) * (b * b + Y) := by
  rcases eq_or_lt_of_le hX with hX0 | hXpos
  · have hXz : X = 0 := hX0.symm
    subst hXz
    have hS2 : S ^ 2 ≤ 0 := by nlinarith
    have hS0 : S = 0 := sq_eq_zero_iff.mp (le_antisymm hS2 (sq_nonneg S))
    subst hS0
    nlinarith [mul_nonneg (mul_self_nonneg a) hY]
  · nlinarith [sq_nonneg (b * X - a * S),
      mul_nonneg (add_nonneg (mul_self_nonneg a) hX) (sub_nonneg.mpr hS)]

/-- Cauchy Schwarz for list sums, by induction on the lists. -/
theorem list_cs (as bs : List ℚ) :
    ((List.zipWith (fun a b => a * b) as bs).sum) ^ 2 ≤
      ((as.map (fun a => a * a)).sum) * ((bs.map (fun b => b * b)).sum) := by
  induction as generalizing bs with
  | nil => simp
  | cons a as ih =>
    cases bs with
    | nil => simp
    | cons b bs =>
      simp only [List.zipWith_cons_cons, List.map_cons, List.sum_cons]
      exact cs_step a b _ _ _ (ih bs) (sum_sq_nonneg as) (sum_sq_nonneg bs)

/-- Zipping a list with itself under multiplication squares the entries. -/
theorem zipWith_mul_self (l : List ℚ) :
    List.zipWith (fun a b => a * b) l l = l.map (fun a => a * a) := by
  induction l with
  | nil => rfl
  | cons a l ih => simp [ih]

/-- The cross sum of a list with itself is its sum of squares. -/
theorem sxy_self (xs : List ℚ) : sxy xs xs = sxx xs := by
  unfold sxy sxx
  rw [zipWith_mul_self]

/-- With nonzero variance on both sides the coefficient is defined and
lies between -1 and 1. -/
theorem pearson_r_bounds (xs ys : List ℚ) (hx : sxx xs ≠ 0) (hy : sxx ys ≠ 0) :
    ∃ r : ℝ, pearson_r xs ys = some r ∧ -1 ≤ r ∧ r ≤ 1 := by
  have hX : (0:ℚ) < sxx xs := lt_of_le_of_ne (sxx_nonneg xs) (Ne.symm hx)
  have hY : (0:ℚ) < sxx ys := lt_of_le_of_ne (sxx_nonneg ys) (Ne.symm hy)
  have hXR : (0:ℝ) < (sxx xs : ℝ) := by exact_mod_cast hX
  have hYR : (0:ℝ) < (sxx ys : ℝ) := by exact_mod_cast hY
  have hcs : (sxy xs ys) ^ 2 ≤ sxx xs * sxx ys := list_cs (centered xs) (centered ys)
  have hcsR : ((sxy xs ys : ℝ)) ^ 2 ≤ (sxx xs : ℝ) * (sxx ys : ℝ) := by
    exact_mod_cast hcs
  have hDpos : 0 < Real.sqrt (sxx xs) * Real.sqrt (sxx ys) :=
    mul_pos (Real.sqrt_pos.mpr hXR) (Real.sqrt_pos.mpr hYR)
  have habs : |(sxy xs ys : ℝ)| ≤ Real.sqrt (sxx xs) * Real.sqrt (sxx ys) := by
    have h1 : |(sxy xs ys : ℝ)| = Real.sqrt (((sxy xs ys : ℝ)) ^ 2) :=
      (Real.sqrt_sq_eq_abs _).symm
    rw [h1, ← Real.sqrt_mul hXR.le]
    exact Real.sqrt_le_sqrt hcsR
  refine ⟨(sxy xs ys : ℝ) / (Real.sqrt (sxx xs) * Real.sqrt (sxx ys)), ?_, ?_⟩
  · unfold pearson_r
    rw [if_neg (by simp [hx, hy])]
  · have hle : |(sxy xs ys : ℝ) / (Real.sqrt (sxx xs) * Real.sqrt (sxx ys))| ≤ 1 := by
      rw [abs_div, abs_of_pos hDpos]
      exact (div_le_one hDpos).mpr habs
    exact abs_le.mp hle

/-- A series with nonzero variance correlated against itself yields
exactly 1. -/
theorem pearson_r_self (xs : List ℚ) (hx : sxx xs ≠ 0) :
    pearson_r xs xs = some 1 := by
  have h0 : (0:ℝ) ≤ (sxx xs : ℝ) := by exact_mod_cast sxx_nonneg xs
  have hne : ((sxx xs : ℝ)) ≠ 0 := by exact_mod_cast hx
  unfold pearson_r
  rw [if_neg (by simp [hx]), sxy_self, Real.mul_self_sqrt h0, div_self hne]

/-- Lookup skips a head row with a different timestamp. -/
theorem lookupTs_cons_ne (t : ℚ) (p : ℚ × ℚ) (l : PriceSeries) (h : t ≠ p.1) :
    lookupTs t (p :: l) = lookupTs t l := by
  simp [lookupTs, h]

/-- Prepending a row whose timestamp occurs nowhere in a series does not
change lookups of the timestamps of that series. -/
theorem innerJoin_lookup_cons (A : PriceSeries) (p : ℚ × ℚ) (B : PriceSeries)
    (h : ∀ q ∈ A, q.1 ≠ p.1) :
    A.filterMap (fun q => (lookupTs q.1 (p :: B)).map (fun y => (q.1, q.2, y))) =
      A.filterMap (fun q => (lookupTs q.1 B).map (fun y => (q.1, q.2, y))) := by
  induction A with
  | nil => rfl
  | cons q A ih =>
    rw [List.filterMap_cons, List.filterMap_cons,
      lookupTs_cons_ne q.1 p B (h q (List.mem_cons_self q A)),
      ih (fun r hr => h r (List.mem_cons_of_mem q hr))]

/-- Joining a duplicate free series with itself pairs every value with
itself. -/
theorem innerJoin_self (A : PriceSeries) (h : (A.map Prod.fst).Nodup) :
    innerJoin A A = A.map (fun p => (p.1, p.2, p.2)) := by
  induction A with
  | nil => rfl
  | cons p A ih =>
    rw [List.map_cons, List.nodup_cons] at h
    obtain ⟨hnotin, htail⟩ := h
    have hne : ∀ q ∈ A, q.1 ≠ p.1 := fun q hq he =>
      hnotin (he ▸ List.mem_map_of_mem Prod.fst hq)
    have hp : lookupTs p.1 (p :: A) = some p.2 := by
      simp [lookupTs]
    have ihh := ih htail
    unfold innerJoin at ihh ⊢
    simp only [List.filterMap_cons, hp, Option.map_some']
    rw [innerJoin_lookup_cons A p A hne, ihh, List.map_cons]

/-- C6: for every pair of aligned series with at least 2 shared
timestamps and nonzero variance in both aligned value columns, the
coefficient is defined and lies in the closed interval from -1 to 1; and
a duplicate free series joined and correlated with itself yields a
coefficient within one billionth of 1 (here exactly 1). -/
theorem C6_pearson_range_and_self_one :
    (∀ A B : PriceSeries, 2 ≤ (innerJoin A B).length →
      sxx (xcol (innerJoin A B)) ≠ 0 → sxx (ycol (innerJoin A B)) ≠ 0 →
      ∃ r : ℝ, pearson_r (xcol (innerJoin A B)) (ycol (innerJoin A B)) = some r ∧
        -1 ≤ r ∧ r ≤ 1) ∧
    (∀ A : PriceSeries, (A.map Prod.fst).Nodup →
      sxx (xcol (innerJoin A A)) ≠ 0 →
      ∃ r : ℝ, pearson_r (xcol (innerJoin A A)) (ycol (innerJoin A A)) = some r ∧
        |r - 1| ≤ 1 / 1000000000) := by
  constructor
  · intro A B _ hx hy
    exact pearson_r_bounds _ _ hx hy
  · intro A hnd hx
    have hxy : ycol (innerJoin A A) = xcol (innerJoin A A) := by
      rw [innerJoin_self A hnd]
      simp [xcol, ycol, List.map_map]
    rw [hxy]
    refine ⟨1, pearson_r_self _ hx, ?_⟩
    rw [sub_self, abs_zero]
    norm_num

/-- Witness for C6 at two concrete two point series. -/
theorem C6_pearson_range_and_self_one_witness :
    (∃ r : ℝ, pearson_r (xcol (innerJoin [(0, 1), (1, 2)] [(0, 2), (1, 1)]))
        (ycol (innerJoin [(0, 1), (1, 2)] [(0, 2), (1, 1)])) = some r ∧
        -1 ≤ r ∧ r ≤ 1) ∧
    (∃ r : ℝ, pearson_r (xcol (innerJoin [(0, 1), (1, 2)] [(0, 1), (1, 2)]))
        (ycol (innerJoin [(0, 1), (1, 2)] [(0, 1), (1, 2)])) = some r ∧
        |r - 1| ≤ 1 / 1000000000) :=
  ⟨C6_pearson_range_and_self_one.1 [(0, 1), (1, 2)] [(0, 2), (1, 1)]
      (by norm_num [innerJoin, lookupTs, List.filterMap_cons])
      (by norm_num [innerJoin, lookupTs, List.filterMap_cons, xcol, sxx,
        centered, mean])
      (by norm_num [innerJoin, lookupTs, List.filterMap_cons, ycol, sxx,
        centered, mean]),
   C6_pearson_range_and_self_one.2 [(0, 1), (1, 2)] (by norm_num)
      (by norm_num [innerJoin, lookupTs, List.filterMap_cons, xcol, sxx,
        centered, mean])⟩

/-- C1, refuted on the code: with two aligned points and a zero variance
column the pandas coefficient is NaN, calculate_correlation returns it as
a float, and the monitor treats it as a numeric success, emitting a
report that carries NaN and updating both state variables, instead of the
error notification the claim requires. -/
theorem C1_nan_reported_as_valid :
    calculate_correlation histC1 "AAA" "BBB" "1d" "1y" = PyCorr.num none ∧
    monitor_step ⟨none, none⟩ 0 2 (PyCorr.num none) =
      (⟨some 0, some 2⟩, some (Event.report none)) := by
  constructor
  · have hcond : sxx [(100:ℚ), 100] = 0 ∨ sxx [(100:ℚ), 200] = 0 :=
      Or.inl (by norm_num [sxx, centered, mean])
    have h : pearson_r [(100:ℚ), 100] [(100:ℚ), 200] = none := by
      unfold pearson_r
      exact if_pos hcond
    have e1 : calculate_correlation histC1 "AAA" "BBB" "1d" "1y" =
        PyCorr.num (pearson_r [(100:ℚ), 100] [(100:ℚ), 200]) := rfl
    rw [e1, h]
  · rfl

/-- The loop stops in an iteration exactly when that iteration is
interrupted. -/
theorem loop_body_stopped (st : MonitorState) (env : IterEnv) :
    (loop_body st env).stopped = env.interrupt := by
  unfold loop_body
  cases h : env.interrupt <;> simp [h]

/-- A gated emission is never the stop notice. -/
theorem monitor_step_event_not_stop (st : MonitorState) (now : ℚ) (n : ℕ)
    (c : PyCorr) (ev : Event) (h : (monitor_step st now n c).2 = some ev) :
    isStopNotice ev = false := by
  unfold monitor_step at h
  cases hg : should_report st.last_update st.last_data_count now n
  · rw [hg] at h
    simp at h
  · rw [hg] at h
    cases c with
    | num x =>
      simp at h
      subst h
      rfl
    | err m =>
      simp at h
      subst h
      rfl

/-- An iteration prints the stop notice exactly once when interrupted and
never otherwise. -/
theorem loop_body_count (st : MonitorState) (env : IterEnv) :
    List.countP isStopNotice (loop_body st env).output =
      if env.interrupt then 1 else 0 := by
  have hnostop : ∀ data : PriceSeries,
      List.countP isStopNotice
        ((monitor_step st env.now data.length env.corr).2.toList) = 0 := by
    intro data
    cases ho : (monitor_step st env.now data.length env.corr).2 with
    | none => simp
    | some ev =>
      simp [List.countP_cons,
        monitor_step_event_not_stop st env.now data.length env.corr ev ho]
  unfold loop_body
  cases hi : env.interrupt <;> cases hf : env.fetch1 <;>
    simp [hi, hf, List.countP_append, List.countP_cons, isStopNotice, hnostop]

/-- The gated step either keeps the state or installs the pair of the
current instant and count. -/
theorem monitor_step_state (st : MonitorState) (now : ℚ) (n : ℕ) (c : PyCorr) :
    (monitor_step st now n c).1 = st ∨
      (monitor_step st now n c).1 = ⟨some now, some n⟩ := by
  unfold monitor_step
  cases hg : should_report st.last_update st.last_data_count now n
  · simp [hg]
  · cases c with
    | num x =>
      right
      simp [hg]
    | err m =>
      left
      simp [hg]

/-- One iteration keeps the state or installs a pair of set values. -/
theorem loop_body_state (st : MonitorState) (env : IterEnv) :
    (loop_body st env).state = st ∨
      ∃ t n, (loop_body st env).state = ⟨some t, some n⟩ := by
  have hmain : ∀ data : PriceSeries,
      (monitor_step st env.now data.length env.corr).1 = st ∨
        ∃ t n, (monitor_step st env.now data.length env.corr).1 =
          (⟨some t, some n⟩ : MonitorState) := by
    intro data
    rcases monitor_step_state st env.now data.length env.corr with h | h
    · exact Or.inl h
    · exact Or.inr ⟨env.now, data.length, h⟩
  unfold loop_body
  cases hi : env.interrupt <;> cases hf : env.fetch1 <;> simp [hi, hf] <;>
    exact hmain _

/-- One iteration preserves the both unset or both set invariant. -/
theorem loop_body_inv (st : MonitorState) (env : IterEnv) (h : stateInv st) :
    stateInv (loop_body st env).state := by
  rcases loop_body_state st env with he | ⟨t, n, he⟩
  · rw [he]
    exact h
  · rw [he]
    exact Or.inr ⟨by simp, by simp⟩

/-- Running any trace preserves the both unset or both set invariant. -/
theorem run_inv (st : MonitorState) (envs : List IterEnv) (h : stateInv st) :
    stateInv (continuous_monitor_run st envs).state := by
  induction envs generalizing st with
  | nil => exact h
  | cons env rest ih =>
    unfold continuous_monitor_run
    cases hs : (loop_body st env).stopped
    · simp only [hs, Bool.false_eq_true, if_false]
      exact ih _ (loop_body_inv st env h)
    · simp only [hs, if_true]
      exact loop_body_inv st env h

/-- Core of the cancellation claim: with no interrupt before it, the
interrupted iteration ends the run, the tail of the trace is never
consumed, and the stop notice appears exactly once. -/
theorem run_stops_aux (env : IterEnv) (henv : env.interrupt = true)
    (post : List IterEnv) :
    ∀ pre : List IterEnv, (∀ e ∈ pre, e.interrupt = false) →
      ∀ st : MonitorState,
      continuous_monitor_run st (pre ++ env :: post) =
        continuous_monitor_run st (pre ++ [env]) ∧
      (continuous_monitor_run st (pre ++ env :: post)).stopped = true ∧
      List.countP isStopNotice
        (continuous_monitor_run st (pre ++ env :: post)).output = 1 := by
  intro pre
  induction pre with
  | nil =>
    intro _ st
    have hstop : (loop_body st env).stopped = true := by
      rw [loop_body_stopped, henv]
    have h1 : continuous_monitor_run st (env :: post) = loop_body st env := by
      unfold continuous_monitor_run
      simp [hstop]
    have h2 : continuous_monitor_run st [env] = loop_body st env := by
      unfold continuous_monitor_run
      simp [hstop]
    refine ⟨?_, ?_, ?_⟩
    · rw [List.nil_append, List.nil_append, h1, h2]
    · rw [List.nil_append, h1, hstop]
    · rw [List.nil_append, h1, loop_body_count, henv]
      rfl
  | cons p pre ih =>
    intro hpre st
    have hp : p.interrupt = false := hpre p (List.mem_cons_self p pre)
    have hpre2 : ∀ e ∈ pre, e.interrupt = false :=
      fun e he => hpre e (List.mem_cons_of_mem p he)
    have hnostop : (loop_body st p).stopped = false := by
      rw [loop_body_stopped, hp]
    obtain ⟨ih1, ih2, ih3⟩ := ih hpre2 (loop_body st p).state
    refine ⟨?_, ?_, ?_⟩
    · rw [List.cons_append, List.cons_append]
      unfold continuous_monitor_run
      rw [ih1]
    · rw [List.cons_append]
      unfold continuous_monitor_run
      simp [hnostop, ih2]
    · rw [List.cons_append]
      unfold continuous_monitor_run
      simp [hnostop, List.countP_append, ih3, loop_body_count, hp]

/-- C9: an operator interrupt delivered during an iteration of the loop
makes the run stop there: the result does not depend on the rest of the
trace (the loop body is not re-entered), exactly one stop notice is
printed, and the process ends with exit status 0. -/
theorem C9_interrupt_clean_stop (st : MonitorState) (pre post : List IterEnv)
    (env : IterEnv) (hpre : ∀ e ∈ pre, e.interrupt = false)
    (henv : env.interrupt = true) :
    continuous_monitor_run st (pre ++ env :: post) =
      continuous_monitor_run st (pre ++ [env]) ∧
    (continuous_monitor_run st (pre ++ env :: post)).stopped = true ∧
    List.countP isStopNotice
      (continuous_monitor_run st (pre ++ env :: post)).output = 1 ∧
    exit_code (continuous_monitor_run st (pre ++ env :: post)) = some 0 := by
  obtain ⟨h1, h2, h3⟩ := run_stops_aux env henv post pre hpre st
  refine ⟨h1, h2, h3, ?_⟩
  unfold exit_code
  rw [h2]
  rfl

/-- Witness for C9 at a one iteration trace that is interrupted. -/
theorem C9_interrupt_clean_stop_witness :
    continuous_monitor_run ⟨none, none⟩ ([] ++ iEnv0 :: []) =
      continuous_monitor_run ⟨none, none⟩ ([] ++ [iEnv0]) ∧
    (continuous_monitor_run ⟨none, none⟩ ([] ++ iEnv0 :: [])).stopped = true ∧
    List.countP isStopNotice
      (continuous_monitor_run ⟨none, none⟩ ([] ++ iEnv0 :: [])).output = 1 ∧
    exit_code (continuous_monitor_run ⟨none, none⟩ ([] ++ iEnv0 :: [])) =
      some 0 :=
  C9_interrupt_clean_stop ⟨none, none⟩ [] [] iEnv0
    (fun e he => absurd he (List.not_mem_nil e)) rfl

/-- C10: from the initial state with both variables unset, after any
number of iterations the monitor state has last_update and
last_data_count both unset or both set, because the success branch is
the only writer and assigns them together. -/
theorem C10_both_or_neither (envs : List IterEnv) :
    stateInv (continuous_monitor_run ⟨none, none⟩ envs).state :=
  run_inv ⟨none, none⟩ envs (Or.inl ⟨rfl, rfl⟩)
